import Mathlib

/-!
A shallow embedding of the gateway negotiation code of rust-igd,
`src/aio/gateway.rs`.  The transport, message-formatting and
response-parsing collaborators are not part of the source tree; they are
modelled from the specification (section 7 fault taxonomy).  The device is
modelled as a response script `dev : Nat → Except RequestError RequestReponse`
giving the structured outcome of the n-th network round trip, and the random
port source as a stream `rng : Nat → Nat`; the state `St` threads the number
of consumed responses, the number of consumed random values, and the log of
issued requests.
-/

set_option linter.unusedVariables false

/-- Protocol enum of the crate: exactly two variants, TCP and UDP. -/
inductive PortMappingProtocol
| TCP
| UDP
deriving DecidableEq, Repr

/-- An IPv4 address as four octets, standing for std::net::Ipv4Addr. -/
structure Ipv4Addr where
  a : Nat
  b : Nat
  c : Nat
  d : Nat
deriving DecidableEq, Repr

/-- A socket address, standing for std::net::SocketAddrV4. -/
structure SocketAddrV4 where
  ip : Ipv4Addr
  port : Nat
deriving DecidableEq, Repr

/-- The device handle of `gateway.rs`: socket address plus control url. -/
structure Gateway where
  addr : SocketAddrV4
  control_url : String
deriving DecidableEq, Repr

/-- Dotted-quad rendering of an IPv4 address, as the std Display does. -/
def Ipv4Addr.render (x : Ipv4Addr) : String :=
  toString x.a ++ "." ++ toString x.b ++ "." ++ toString x.c ++ "." ++ toString x.d

/-- Rendering of a socket address, `ip:port`, as the std Display does. -/
def SocketAddrV4.render (x : SocketAddrV4) : String :=
  x.ip.render ++ ":" ++ toString x.port

/-- The Display impl for Gateway: the scheme, then the address, then the
control url, concatenated. -/
def Gateway.render (g : Gateway) : String :=
  "http://" ++ g.addr.render ++ g.control_url

/-- The PartialEq impl for Gateway: both fields compared. -/
def Gateway.beq (x y : Gateway) : Bool :=
  decide (x.addr = y.addr) && decide (x.control_url = y.control_url)

/-- The Hash impl for Gateway, modelled as the data it feeds to the hasher:
the address fields first, then the control url bytes. -/
def Gateway.hashStream (g : Gateway) : List Nat :=
  [g.addr.ip.a, g.addr.ip.b, g.addr.ip.c, g.addr.ip.d, g.addr.port]
    ++ g.control_url.toList.map Char.toNat

/-- Modelled from the spec: the structured outcome classes of one protocol
round trip, following the fault taxonomy of spec section 7; the concrete
error enums live in src/errors.rs, which is not in the source tree.  The
three recoverable fault kinds are distinguished, every other fault or
transport failure is collapsed into `other`. -/
inductive RequestError
| unknownMethod
| portConflict
| samePortRequired
| other (code : Nat)
deriving DecidableEq, Repr

/-- The parsed payload of a successful response (a granted port for the
any-port operation, an external IP for the IP query, unused otherwise). -/
abbrev RequestReponse := Nat

/-- Error type of the external-IP query. -/
inductive GetExternalIpError
| requestError (e : RequestError)
deriving DecidableEq, Repr

/-- Error type of the any-port family. -/
inductive AddAnyPortError
| internalPortZeroInvalid
| noPortsAvailable
| getExternalIpError (e : GetExternalIpError)
| requestError (e : RequestError)
deriving DecidableEq, Repr

/-- Error type of the explicit add operation. -/
inductive AddPortError
| externalPortZeroInvalid
| internalPortZeroInvalid
| requestError (e : RequestError)
deriving DecidableEq, Repr

/-- Error type of the delete operation. -/
inductive RemovePortError
| requestError (e : RequestError)
deriving DecidableEq, Repr

/-- The network requests the gateway code can issue, carrying the parameters
the properties observe. -/
inductive Request
| getExternalIp
| addAnyPortMapping (protocol : PortMappingProtocol) (external_port : Nat)
| addPortMapping (protocol : PortMappingProtocol) (external_port : Nat)
| deletePortMapping (protocol : PortMappingProtocol) (external_port : Nat)
deriving DecidableEq, Repr

/-- The environment of one call: the device response script and the random
port stream. -/
structure World where
  dev : Nat → Except RequestError RequestReponse
  rng : Nat → Nat

/-- The observable state threaded through a call: responses consumed,
random values consumed, requests issued. -/
structure St where
  req : Nat
  rnd : Nat
  log : List Request
deriving Repr

/-- The fresh state each public call starts from. -/
def S0 : St := St.mk 0 0 []

/-- One transport round trip, standing for perform_request: consume the next
scripted device response and record the request. -/
def perform (w : World) (r : Request) (s : St) : Except RequestError RequestReponse × St :=
  (w.dev s.req, St.mk (s.req + 1) s.rnd (s.log ++ [r]))

/-- Modelled from the spec: the port produced by common::random_port (not in
the source tree) lies in the valid port range and is never 0. -/
def randPort (v : Nat) : Nat := v % 65535 + 1

/-- One draw from the random port stream, standing for common::random_port. -/
def random_port (w : World) (s : St) : Nat × St :=
  (randPort (w.rng s.rnd), St.mk s.req (s.rnd + 1) s.log)

/-- Modelled from the spec: parsing::parse_add_any_port_mapping_response
(not in the source tree).  Success carries the device-granted port; the
unknown-method fault maps to none, triggering the Layer 2 fallback; any
other fault is fatal and surfaced. -/
def parse_add_any_port_mapping_response :
    Except RequestError RequestReponse → Except (Option AddAnyPortError) Nat
  | Except.ok port => Except.ok port
  | Except.error RequestError.unknownMethod => Except.error none
  | Except.error e => Except.error (some (AddAnyPortError.requestError e))

/-- Modelled from the spec: parsing::convert_add_random_port_mapping_error
(not in the source tree).  A port-conflict fault becomes NoPortsAvailable,
which the loop treats as one consumed retry; the same-port-required fault
becomes none, triggering the Layer 3 fallback; everything else is fatal. -/
def convert_add_random_port_mapping_error : RequestError → Option AddAnyPortError
  | RequestError.portConflict => some AddAnyPortError.noPortsAvailable
  | RequestError.samePortRequired => none
  | e => some (AddAnyPortError.requestError e)

/-- Modelled from the spec: parsing::convert_add_same_port_mapping_error
(not in the source tree).  At Layer 3 no recoverable cases remain; every
fault is fatal and surfaced. -/
def convert_add_same_port_mapping_error : RequestError → AddAnyPortError :=
  fun e => AddAnyPortError.requestError e

/-- Modelled from the spec: parsing::convert_add_port_error (not in the
source tree) surfaces the device fault in the explicit-add taxonomy. -/
def convert_add_port_error : RequestError → AddPortError :=
  fun e => AddPortError.requestError e

/-- Modelled from the spec: parsing::parse_get_external_ip_response (not in
the source tree). -/
def parse_get_external_ip_response :
    Except RequestError RequestReponse → Except GetExternalIpError Nat
  | Except.ok ip => Except.ok ip
  | Except.error e => Except.error (GetExternalIpError.requestError e)

/-- Modelled from the spec: parsing::parse_delete_port_mapping_response (not
in the source tree); the device fault is propagated unchanged, success
carries no payload. -/
def parse_delete_port_mapping_response :
    Except RequestError RequestReponse → Except RemovePortError Unit
  | Except.ok _ => Except.ok ()
  | Except.error e => Except.error (RemovePortError.requestError e)

/-- Modelled from the spec: the From conversion applied by the question-mark
operator when get_any_address propagates an IP-query failure. -/
def fromGetExternalIpError : GetExternalIpError → AddAnyPortError :=
  fun e => AddAnyPortError.getExternalIpError e

/-- Gateway::add_port_mapping: one explicit add-mapping round trip. -/
def Gateway.add_port_mapping (g : Gateway) (w : World) (protocol : PortMappingProtocol)
    (external_port : Nat) (local_addr : SocketAddrV4) (lease_duration : Nat)
    (description : String) (s : St) : Except RequestError Unit × St :=
  match perform w (Request.addPortMapping protocol external_port) s with
  | (Except.ok _, s1) => (Except.ok (), s1)
  | (Except.error e, s1) => (Except.error e, s1)

/-- Gateway::add_same_port_mapping: Layer 3, one explicit add using the
local endpoint's own port as the external port. -/
def Gateway.add_same_port_mapping (g : Gateway) (w : World) (protocol : PortMappingProtocol)
    (local_addr : SocketAddrV4) (lease_duration : Nat) (description : String) (s : St) :
    Except AddAnyPortError Nat × St :=
  match g.add_port_mapping w protocol local_addr.port local_addr lease_duration description s with
  | (Except.ok _, s1) => (Except.ok local_addr.port, s1)
  | (Except.error e, s1) => (Except.error (convert_add_same_port_mapping_error e), s1)

/-- Gateway::add_random_port_mapping: one Layer 2 iteration body; on the
same-port-required signal it falls through to Layer 3. -/
def Gateway.add_random_port_mapping (g : Gateway) (w : World) (protocol : PortMappingProtocol)
    (local_addr : SocketAddrV4) (lease_duration : Nat) (description : String) (s : St) :
    Except AddAnyPortError Nat × St :=
  match random_port w s with
  | (external_port, s1) =>
    match g.add_port_mapping w protocol external_port local_addr lease_duration description s1 with
    | (Except.ok _, s2) => (Except.ok external_port, s2)
    | (Except.error err, s2) =>
      match convert_add_random_port_mapping_error err with
      | some e => (Except.error e, s2)
      | none => g.add_same_port_mapping w protocol local_addr lease_duration description s2

/-- The body of the `for _ in 0u8..20u8` loop of
Gateway::retry_add_random_port_mapping, with the remaining iteration count
explicit: NoPortsAvailable consumes one iteration, anything else returns. -/
def Gateway.retryLoop (g : Gateway) (w : World) (protocol : PortMappingProtocol)
    (local_addr : SocketAddrV4) (lease_duration : Nat) (description : String) :
    Nat → St → Except AddAnyPortError Nat × St
  | 0, s => (Except.error AddAnyPortError.noPortsAvailable, s)
  | n + 1, s =>
    match g.add_random_port_mapping w protocol local_addr lease_duration description s with
    | (Except.ok port, s1) => (Except.ok port, s1)
    | (Except.error AddAnyPortError.noPortsAvailable, s1) =>
      g.retryLoop w protocol local_addr lease_duration description n s1
    | (Except.error e, s1) => (Except.error e, s1)

/-- Gateway::retry_add_random_port_mapping: Layer 2, at most 20 iterations. -/
def Gateway.retry_add_random_port_mapping (g : Gateway) (w : World)
    (protocol : PortMappingProtocol) (local_addr : SocketAddrV4) (lease_duration : Nat)
    (description : String) (s : St) : Except AddAnyPortError Nat × St :=
  g.retryLoop w protocol local_addr lease_duration description 20 s

/-- Gateway::add_any_port: the any-port negotiation entry point. -/
def Gateway.add_any_port (g : Gateway) (w : World) (protocol : PortMappingProtocol)
    (local_addr : SocketAddrV4) (lease_duration : Nat) (description : String) (s : St) :
    Except AddAnyPortError Nat × St :=
  if local_addr.port = 0 then
    (Except.error AddAnyPortError.internalPortZeroInvalid, s)
  else
    match random_port w s with
    | (external_port, s1) =>
      match perform w (Request.addAnyPortMapping protocol external_port) s1 with
      | (resp, s2) =>
        match parse_add_any_port_mapping_response resp with
        | Except.ok port => (Except.ok port, s2)
        | Except.error none =>
          g.retry_add_random_port_mapping w protocol local_addr lease_duration description s2
        | Except.error (some err) => (Except.error err, s2)

/-- Gateway::get_external_ip: one round trip for the external IP query. -/
def Gateway.get_external_ip (g : Gateway) (w : World) (s : St) :
    Except GetExternalIpError Nat × St :=
  match perform w Request.getExternalIp s with
  | (resp, s1) => (parse_get_external_ip_response resp, s1)

/-- Gateway::get_any_address: query the external IP, then acquire any
external port, then combine the two. -/
def Gateway.get_any_address (g : Gateway) (w : World) (protocol : PortMappingProtocol)
    (local_addr : SocketAddrV4) (lease_duration : Nat) (description : String) (s : St) :
    Except AddAnyPortError (Nat × Nat) × St :=
  match g.get_external_ip w s with
  | (Except.error e, s1) => (Except.error (fromGetExternalIpError e), s1)
  | (Except.ok ip, s1) =>
    match g.add_any_port w protocol local_addr lease_duration description s1 with
    | (Except.error e, s2) => (Except.error e, s2)
    | (Except.ok port, s2) => (Except.ok (ip, port), s2)

/-- Gateway::add_port: request an exact external port. -/
def Gateway.add_port (g : Gateway) (w : World) (protocol : PortMappingProtocol)
    (external_port : Nat) (local_addr : SocketAddrV4) (lease_duration : Nat)
    (description : String) (s : St) : Except AddPortError Unit × St :=
  if external_port = 0 then
    (Except.error AddPortError.externalPortZeroInvalid, s)
  else if local_addr.port = 0 then
    (Except.error AddPortError.internalPortZeroInvalid, s)
  else
    match g.add_port_mapping w protocol external_port local_addr lease_duration description s with
    | (Except.error err, s1) => (Except.error (convert_add_port_error err), s1)
    | (Except.ok _, s1) => (Except.ok (), s1)

/-- Gateway::remove_port: one delete-mapping round trip. -/
def Gateway.remove_port (g : Gateway) (w : World) (protocol : PortMappingProtocol)
    (external_port : Nat) (s : St) : Except RemovePortError Unit × St :=
  match perform w (Request.deletePortMapping protocol external_port) s with
  | (resp, s1) => (parse_delete_port_mapping_response resp, s1)

/-- Whether a logged request is an explicit add-mapping (Layer 2 or 3). -/
def isExplicit : Request → Bool
  | Request.addPortMapping _ _ => true
  | _ => false

/-- The number of explicit add-mapping requests in a log. -/
def countExplicit (l : List Request) : Nat := l.countP isExplicit

/-- The requests logged by n consecutive conflicted Layer 2 iterations,
starting at random-stream index r. -/
def conflictLog (w : World) (protocol : PortMappingProtocol) : Nat → Nat → List Request
  | 0, _ => []
  | n + 1, r =>
    Request.addPortMapping protocol (randPort (w.rng r)) :: conflictLog w protocol n (r + 1)

/-- A sample local endpoint with a valid (nonzero) port, for instantiation. -/
def LA1 : SocketAddrV4 := SocketAddrV4.mk (Ipv4Addr.mk 192 168 0 2) 5000

/-- A sample local endpoint with port 0, for instantiation. -/
def LA0 : SocketAddrV4 := SocketAddrV4.mk (Ipv4Addr.mk 192 168 0 2) 0

/-- A sample gateway handle, for instantiation. -/
def G1 : Gateway := Gateway.mk (SocketAddrV4.mk (Ipv4Addr.mk 192 168 0 1) 1900) "/ctl"

/-- A device script granting port 7 to every request, with zero randomness. -/
def WOk : World := World.mk (fun _ => Except.ok 7) (fun _ => 0)

/-- A device script always failing with an unclassified fault. -/
def WFault : World := World.mk (fun _ => Except.error (RequestError.other 3)) (fun _ => 0)

/-- A device script answering unknown-method first, then port conflicts
forever. -/
def WConflict : World := World.mk
  (fun i => match i with
    | 0 => Except.error RequestError.unknownMethod
    | _ + 1 => Except.error RequestError.portConflict)
  (fun _ => 0)

/-- A device script answering same-port-required first, then success. -/
def WSamePort : World := World.mk
  (fun i => match i with
    | 0 => Except.error RequestError.samePortRequired
    | _ + 1 => Except.ok 7)
  (fun _ => 0)

/-! ### Shape lemmas: exact descriptions of each operation's effect -/

/-- One explicit add-mapping round trip records exactly one request and
mirrors the device outcome. -/
theorem add_port_mapping_eq (g : Gateway) (w : World) (protocol : PortMappingProtocol)
    (external_port : Nat) (local_addr : SocketAddrV4) (lease_duration : Nat)
    (description : String) (s : St) :
    g.add_port_mapping w protocol external_port local_addr lease_duration description s =
      ((match w.dev s.req with
        | Except.ok _ => Except.ok ()
        | Except.error e => Except.error e),
       St.mk (s.req + 1) s.rnd (s.log ++ [Request.addPortMapping protocol external_port])) := by
  cases h : w.dev s.req <;> simp [Gateway.add_port_mapping, perform, h]

/-- Layer 3 records one explicit add at the local port and surfaces any
fault. -/
theorem add_same_port_mapping_eq (g : Gateway) (w : World) (protocol : PortMappingProtocol)
    (local_addr : SocketAddrV4) (lease_duration : Nat) (description : String) (s : St) :
    g.add_same_port_mapping w protocol local_addr lease_duration description s =
      ((match w.dev s.req with
        | Except.ok _ => Except.ok local_addr.port
        | Except.error e => Except.error (AddAnyPortError.requestError e)),
       St.mk (s.req + 1) s.rnd (s.log ++ [Request.addPortMapping protocol local_addr.port])) := by
  cases h : w.dev s.req <;>
    simp [Gateway.add_same_port_mapping, add_port_mapping_eq, h,
      convert_add_same_port_mapping_error]

/-- One Layer 2 iteration body, by cases on the device outcome of its
explicit add: success returns the candidate, a port conflict becomes the
retryable NoPortsAvailable, the same-port signal runs Layer 3 at the local
port, anything else is fatal. -/
theorem add_random_port_mapping_eq (g : Gateway) (w : World) (protocol : PortMappingProtocol)
    (local_addr : SocketAddrV4) (lease_duration : Nat) (description : String) (s : St) :
    g.add_random_port_mapping w protocol local_addr lease_duration description s =
      match w.dev s.req with
      | Except.ok _ =>
        (Except.ok (randPort (w.rng s.rnd)),
         St.mk (s.req + 1) (s.rnd + 1)
           (s.log ++ [Request.addPortMapping protocol (randPort (w.rng s.rnd))]))
      | Except.error RequestError.portConflict =>
        (Except.error AddAnyPortError.noPortsAvailable,
         St.mk (s.req + 1) (s.rnd + 1)
           (s.log ++ [Request.addPortMapping protocol (randPort (w.rng s.rnd))]))
      | Except.error RequestError.samePortRequired =>
        ((match w.dev (s.req + 1) with
          | Except.ok _ => Except.ok local_addr.port
          | Except.error e => Except.error (AddAnyPortError.requestError e)),
         St.mk (s.req + 2) (s.rnd + 1)
           (s.log ++ [Request.addPortMapping protocol (randPort (w.rng s.rnd)),
                      Request.addPortMapping protocol local_addr.port]))
      | Except.error e =>
        (Except.error (AddAnyPortError.requestError e),
         St.mk (s.req + 1) (s.rnd + 1)
           (s.log ++ [Request.addPortMapping protocol (randPort (w.rng s.rnd))])) := by
  rcases h : w.dev s.req with e | v
  · cases e <;>
      simp [Gateway.add_random_port_mapping, random_port, add_port_mapping_eq, h,
        convert_add_random_port_mapping_error, add_same_port_mapping_eq, Nat.add_assoc]
  · simp [Gateway.add_random_port_mapping, random_port, add_port_mapping_eq, h]

/-- C2: at any Layer 2 iteration (any remaining fuel n+1, any state, so any
iteration index including the first) whose explicit add fails with the
same-port-values-required fault, exactly one Layer 3 attempt follows, that
attempt uses the local endpoint's port as the external port, and the loop
makes no further Layer 2 attempts after it, regardless of the Layer 3
outcome. -/
theorem retryLoop_samePort (g : Gateway) (w : World) (protocol : PortMappingProtocol)
    (local_addr : SocketAddrV4) (lease_duration : Nat) (description : String)
    (n : Nat) (s : St)
    (h : w.dev s.req = Except.error RequestError.samePortRequired) :
    g.retryLoop w protocol local_addr lease_duration description (n + 1) s =
      ((match w.dev (s.req + 1) with
        | Except.ok _ => Except.ok local_addr.port
        | Except.error e => Except.error (AddAnyPortError.requestError e)),
       St.mk (s.req + 2) (s.rnd + 1)
         (s.log ++ [Request.addPortMapping protocol (randPort (w.rng s.rnd)),
                    Request.addPortMapping protocol local_addr.port])) := by
  have harpm := add_random_port_mapping_eq g w protocol local_addr lease_duration description s
  rw [h] at harpm
  rcases h2 : w.dev (s.req + 1) with e | v
  · simp only [h2] at harpm
    simp [Gateway.retryLoop, harpm, h2]
  · simp only [h2] at harpm
    simp [Gateway.retryLoop, harpm, h2]

/-- Whatever the device does, the loop on fuel n appends only explicit
add-mapping requests, at most two per iteration, and the response count
moves in step with the log. -/
theorem retryLoop_shape (g : Gateway) (w : World) (protocol : PortMappingProtocol)
    (local_addr : SocketAddrV4) (lease_duration : Nat) (description : String) :
    ∀ (n : Nat) (s : St), ∃ t : List Request,
      (g.retryLoop w protocol local_addr lease_duration description n s).2.log = s.log ++ t ∧
      (g.retryLoop w protocol local_addr lease_duration description n s).2.req
        = s.req + t.length ∧
      (∀ q ∈ t, isExplicit q = true) ∧ t.length ≤ 2 * n := by
  intro n
  induction n with
  | zero =>
    intro s
    exact ⟨[], by simp [Gateway.retryLoop]⟩
  | succ n ih =>
    intro s
    have harpm := add_random_port_mapping_eq g w protocol local_addr lease_duration description s
    rcases h : w.dev s.req with e | v
    case ok =>
      rw [h] at harpm
      refine ⟨[Request.addPortMapping protocol (randPort (w.rng s.rnd))], ?_⟩
      simp [Gateway.retryLoop, harpm, isExplicit]
      omega
    case error =>
      cases e
      case unknownMethod =>
        rw [h] at harpm
        refine ⟨[Request.addPortMapping protocol (randPort (w.rng s.rnd))], ?_⟩
        simp [Gateway.retryLoop, harpm, isExplicit]
        omega
      case other c =>
        rw [h] at harpm
        refine ⟨[Request.addPortMapping protocol (randPort (w.rng s.rnd))], ?_⟩
        simp [Gateway.retryLoop, harpm, isExplicit]
        omega
      case samePortRequired =>
        rw [h] at harpm
        refine ⟨[Request.addPortMapping protocol (randPort (w.rng s.rnd)),
                 Request.addPortMapping protocol local_addr.port], ?_⟩
        rcases h2 : w.dev (s.req + 1) with e2 | v2 <;>
        · simp only [h2] at harpm
          simp [Gateway.retryLoop, harpm, isExplicit, Nat.add_assoc]
      case portConflict =>
        rw [h] at harpm
        obtain ⟨t2, hlog, hreq, hexp, hlen⟩ := ih
          (St.mk (s.req + 1) (s.rnd + 1)
            (s.log ++ [Request.addPortMapping protocol (randPort (w.rng s.rnd))]))
        refine ⟨Request.addPortMapping protocol (randPort (w.rng s.rnd)) :: t2, ?_, ?_, ?_, ?_⟩
        · simp [Gateway.retryLoop, harpm]
          simpa using hlog
        · simp [Gateway.retryLoop, harpm]
          simp at hreq
          omega
        · intro q hq
          rcases List.mem_cons.mp hq with h1 | h1
          · simp [h1, isExplicit]
          · exact hexp q h1
        · simp
          omega

/-- A run of the loop in which every explicit add meets a port conflict
consumes its whole fuel, logs one explicit add per iteration, and ends in
the synthesized NoPortsAvailable error. -/
theorem retryLoop_conflict (g : Gateway) (w : World) (protocol : PortMappingProtocol)
    (local_addr : SocketAddrV4) (lease_duration : Nat) (description : String) :
    ∀ (n : Nat) (s : St),
      (∀ i, i < n → w.dev (s.req + i) = Except.error RequestError.portConflict) →
      g.retryLoop w protocol local_addr lease_duration description n s =
        (Except.error AddAnyPortError.noPortsAvailable,
         St.mk (s.req + n) (s.rnd + n) (s.log ++ conflictLog w protocol n s.rnd)) := by
  intro n
  induction n with
  | zero =>
    intro s h
    simp [Gateway.retryLoop, conflictLog]
  | succ n ih =>
    intro s h
    have h0 : w.dev s.req = Except.error RequestError.portConflict := by
      simpa using h 0 (Nat.succ_pos n)
    have harpm := add_random_port_mapping_eq g w protocol local_addr lease_duration description s
    rw [h0] at harpm
    have hrec := ih
      (St.mk (s.req + 1) (s.rnd + 1)
        (s.log ++ [Request.addPortMapping protocol (randPort (w.rng s.rnd))]))
      (by
        intro i hi
        have harith : s.req + 1 + i = s.req + (i + 1) := by omega
        simp only [harith]
        exact h (i + 1) (by omega))
    simp only [Gateway.retryLoop, harpm, hrec]
    simp [conflictLog, List.append_assoc, Prod.ext_iff, St.mk.injEq]
    all_goals omega

/-- The conflicted-run log holds exactly one explicit add per iteration. -/
theorem countExplicit_conflictLog (w : World) (protocol : PortMappingProtocol) :
    ∀ (n r : Nat), countExplicit (conflictLog w protocol n r) = n
  | 0, r => by simp [conflictLog, countExplicit]
  | n + 1, r => by
    have hrec := countExplicit_conflictLog w protocol n (r + 1)
    simp only [countExplicit] at hrec
    simp [conflictLog, countExplicit, List.countP_cons, isExplicit, hrec]

/-- Layer 1 of add_any_port, by cases on the device outcome of the any-port
request: success returns the granted port, the unknown-method fault falls
through to the Layer 2/3 sequence, any other fault is surfaced at once. -/
theorem add_any_port_eq (g : Gateway) (w : World) (protocol : PortMappingProtocol)
    (local_addr : SocketAddrV4) (lease_duration : Nat) (description : String) (s : St)
    (hp : local_addr.port ≠ 0) :
    g.add_any_port w protocol local_addr lease_duration description s =
      match w.dev s.req with
      | Except.ok granted =>
        (Except.ok granted,
         St.mk (s.req + 1) (s.rnd + 1)
           (s.log ++ [Request.addAnyPortMapping protocol (randPort (w.rng s.rnd))]))
      | Except.error RequestError.unknownMethod =>
        g.retry_add_random_port_mapping w protocol local_addr lease_duration description
          (St.mk (s.req + 1) (s.rnd + 1)
            (s.log ++ [Request.addAnyPortMapping protocol (randPort (w.rng s.rnd))]))
      | Except.error e =>
        (Except.error (AddAnyPortError.requestError e),
         St.mk (s.req + 1) (s.rnd + 1)
           (s.log ++ [Request.addAnyPortMapping protocol (randPort (w.rng s.rnd))])) := by
  rcases h : w.dev s.req with e | v
  · cases e <;>
      simp [Gateway.add_any_port, hp, random_port, perform, h,
        parse_add_any_port_mapping_response]
  · simp [Gateway.add_any_port, hp, random_port, perform, h,
      parse_add_any_port_mapping_response]

/-! ### Claim theorems -/

/-- C1: for every call to add_any_port with a nonzero local port, the
Layer 1 any-port attempt has exactly three outcomes: on success the
device-granted port is returned (even when it differs from the random
candidate) and no further request is issued; on the unknown-method fault
exactly one Layer 2/Layer 3 call sequence follows (every later request is
an explicit add); on any other structured fault that fault is returned at
once with zero further requests. -/
theorem add_any_port_layer1_trichotomy (g : Gateway) (w : World)
    (protocol : PortMappingProtocol) (local_addr : SocketAddrV4) (lease_duration : Nat)
    (description : String) (hp : local_addr.port ≠ 0) :
    (∀ granted, w.dev 0 = Except.ok granted →
       g.add_any_port w protocol local_addr lease_duration description S0 =
         (Except.ok granted,
          St.mk 1 1 [Request.addAnyPortMapping protocol (randPort (w.rng 0))])) ∧
    (w.dev 0 = Except.error RequestError.unknownMethod →
       g.add_any_port w protocol local_addr lease_duration description S0 =
         g.retry_add_random_port_mapping w protocol local_addr lease_duration description
           (St.mk 1 1 [Request.addAnyPortMapping protocol (randPort (w.rng 0))]) ∧
       ∃ t, (g.add_any_port w protocol local_addr lease_duration description S0).2.log =
              Request.addAnyPortMapping protocol (randPort (w.rng 0)) :: t ∧
            ∀ q ∈ t, isExplicit q = true) ∧
    (∀ e, e ≠ RequestError.unknownMethod → w.dev 0 = Except.error e →
       g.add_any_port w protocol local_addr lease_duration description S0 =
         (Except.error (AddAnyPortError.requestError e),
          St.mk 1 1 [Request.addAnyPortMapping protocol (randPort (w.rng 0))])) := by
  have heq := add_any_port_eq g w protocol local_addr lease_duration description S0 hp
  simp only [S0] at heq
  refine ⟨?_, ?_, ?_⟩
  · intro granted hg
    rw [hg] at heq
    simpa using heq
  · intro hu
    rw [hu] at heq
    have heq2 : g.add_any_port w protocol local_addr lease_duration description S0 =
        g.retryLoop w protocol local_addr lease_duration description 20
          (St.mk 1 1 [Request.addAnyPortMapping protocol (randPort (w.rng 0))]) := by
      simpa [Gateway.retry_add_random_port_mapping] using heq
    constructor
    · simpa [Gateway.retry_add_random_port_mapping] using heq2
    · obtain ⟨t, hlog, hreq, hexp, hlen⟩ := retryLoop_shape g w protocol local_addr
        lease_duration description 20
        (St.mk 1 1 [Request.addAnyPortMapping protocol (randPort (w.rng 0))])
      refine ⟨t, ?_, hexp⟩
      rw [heq2]
      simpa using hlog
  · intro e hne he
    rw [he] at heq
    cases e
    case unknownMethod => exact absurd rfl hne
    all_goals simpa using heq

/-- Witness for C1, success branch: the device grants port 7 while the
random candidate was 1, and only the any-port request is issued. -/
theorem add_any_port_layer1_trichotomy_witness :
    G1.add_any_port WOk PortMappingProtocol.TCP LA1 0 "igd" S0 =
      (Except.ok 7, St.mk 1 1 [Request.addAnyPortMapping PortMappingProtocol.TCP 1]) := by
  have h := (add_any_port_layer1_trichotomy G1 WOk PortMappingProtocol.TCP LA1 0 "igd"
    (by decide)).1 7 rfl
  simpa [randPort, WOk] using h

/-- Witness for C2, first iteration: the explicit add at candidate port 1
meets the same-port signal, one Layer 3 attempt at local port 5000
succeeds, and the loop stops after those two requests. -/
theorem retryLoop_samePort_witness :
    G1.retryLoop WSamePort PortMappingProtocol.TCP LA1 0 "igd" 20 S0 =
      (Except.ok 5000,
       St.mk 2 1 [Request.addPortMapping PortMappingProtocol.TCP 1,
                  Request.addPortMapping PortMappingProtocol.TCP 5000]) := by
  have h := retryLoop_samePort G1 WSamePort PortMappingProtocol.TCP LA1 0 "igd" 19 S0 rfl
  simpa [WSamePort, S0, randPort, LA1] using h

/-- C3: when Layer 1 reports unknown-method and every one of the next 20
explicit adds fails with a port conflict, add_any_port fails with the
engine-synthesized NoPortsAvailable exhaustion error, having made exactly
20 explicit-add attempts (21 requests in total). -/
theorem add_any_port_conflict_exhaustion (g : Gateway) (w : World)
    (protocol : PortMappingProtocol) (local_addr : SocketAddrV4) (lease_duration : Nat)
    (description : String) (hp : local_addr.port ≠ 0)
    (h1 : w.dev 0 = Except.error RequestError.unknownMethod)
    (hc : ∀ i, 1 ≤ i → i ≤ 20 → w.dev i = Except.error RequestError.portConflict) :
    (g.add_any_port w protocol local_addr lease_duration description S0).1 =
      Except.error AddAnyPortError.noPortsAvailable ∧
    countExplicit
        (g.add_any_port w protocol local_addr lease_duration description S0).2.log = 20 ∧
    (g.add_any_port w protocol local_addr lease_duration description S0).2.req = 21 := by
  have heq := add_any_port_eq g w protocol local_addr lease_duration description S0 hp
  simp only [S0] at heq
  rw [h1] at heq
  simp only [Gateway.retry_add_random_port_mapping] at heq
  simp at heq
  have hcl : ∀ i, i < 20 → w.dev (1 + i) = Except.error RequestError.portConflict := by
    intro i hi
    have h12 : (1 : Nat) + i = i + 1 := by omega
    rw [h12]
    exact hc (i + 1) (by omega) (by omega)
  have hloop := retryLoop_conflict g w protocol local_addr lease_duration description 20
    (St.mk 1 1 [Request.addAnyPortMapping protocol (randPort (w.rng 0))])
    (by simpa using hcl)
  have heq2 : g.add_any_port w protocol local_addr lease_duration description S0 =
      (Except.error AddAnyPortError.noPortsAvailable,
       St.mk 21 21
         (Request.addAnyPortMapping protocol (randPort (w.rng 0))
           :: conflictLog w protocol 20 1)) := by
    rw [hloop] at heq
    simpa [S0] using heq
  have h20 := countExplicit_conflictLog w protocol 20 1
  simp only [countExplicit] at h20
  refine ⟨by simp [heq2], ?_, by simp [heq2]⟩
  simp [heq2, countExplicit, List.countP_cons, isExplicit, h20]

/-- Witness for C3: a device failing with unknown-method once and port
conflicts forever makes add_any_port exhaust exactly 20 explicit adds. -/
theorem add_any_port_conflict_exhaustion_witness :
    (G1.add_any_port WConflict PortMappingProtocol.TCP LA1 0 "igd" S0).1 =
        Except.error AddAnyPortError.noPortsAvailable ∧
      countExplicit
          (G1.add_any_port WConflict PortMappingProtocol.TCP LA1 0 "igd" S0).2.log = 20 ∧
      (G1.add_any_port WConflict PortMappingProtocol.TCP LA1 0 "igd" S0).2.req = 21 :=
  add_any_port_conflict_exhaustion G1 WConflict PortMappingProtocol.TCP LA1 0 "igd"
    (by decide) rfl
    (by
      intro i hge hle
      cases i with
      | zero => omega
      | succ n => rfl)

/-- Counterexample to C4: with both the external and the local port zero,
add_port reports the external-port-zero error, because that check runs
first, not the internal-port-zero error the claim demands. -/
theorem add_port_double_zero_counterexample :
    (G1.add_port WOk PortMappingProtocol.TCP 0 LA0 0 "igd" S0).1 =
        Except.error AddPortError.externalPortZeroInvalid ∧
      AddPortError.externalPortZeroInvalid ≠ AddPortError.internalPortZeroInvalid := by
  constructor
  · rfl
  · decide

/-- C4 (amended): with a zero local port, add_any_port fails with the
internal-port-zero error and makes no network request; add_port with a
zero local port also makes no network request, failing with the
internal-port-zero error when the external port is nonzero, but with the
external-port-zero error when the external port is also zero, because that
check runs first. -/
theorem port_zero_validation_amended (g : Gateway) (w : World)
    (protocol : PortMappingProtocol) (external_port : Nat) (local_addr : SocketAddrV4)
    (lease_duration : Nat) (description : String) (s : St)
    (hp : local_addr.port = 0) :
    g.add_any_port w protocol local_addr lease_duration description s =
      (Except.error AddAnyPortError.internalPortZeroInvalid, s) ∧
    g.add_port w protocol external_port local_addr lease_duration description s =
      (Except.error
         (if external_port = 0 then AddPortError.externalPortZeroInvalid
          else AddPortError.internalPortZeroInvalid), s) := by
  constructor
  · simp [Gateway.add_any_port, hp]
  · by_cases he : external_port = 0 <;> simp [Gateway.add_port, hp, he]

/-- Witness for C4 (amended) at a zero local port and external port 3:
both operations fail with the internal-port-zero error, leaving the state
untouched. -/
theorem port_zero_validation_amended_witness :
    G1.add_any_port WOk PortMappingProtocol.TCP LA0 0 "igd" S0 =
        (Except.error AddAnyPortError.internalPortZeroInvalid, S0) ∧
      G1.add_port WOk PortMappingProtocol.TCP 3 LA0 0 "igd" S0 =
        (Except.error AddPortError.internalPortZeroInvalid, S0) := by
  have h := port_zero_validation_amended G1 WOk PortMappingProtocol.TCP 3 LA0 0 "igd" S0 rfl
  simpa using h

/-- C5: for every call to add_port with external port 0, the operation
fails with the external-port-zero validation error and leaves the state,
hence the request log, untouched. -/
theorem add_port_external_zero_rejected (g : Gateway) (w : World)
    (protocol : PortMappingProtocol) (local_addr : SocketAddrV4) (lease_duration : Nat)
    (description : String) (s : St) :
    g.add_port w protocol 0 local_addr lease_duration description s =
      (Except.error AddPortError.externalPortZeroInvalid, s) := by
  simp [Gateway.add_port]

/-- C6: get_any_address queries the external IP first; when that query
fails, exactly one request was issued, the IP failure is surfaced, and the
port acquisition is never attempted; when it succeeds, the outcome is
exactly that of add_any_port run next, its granted port combined with the
queried IP into one socket address. -/
theorem get_any_address_sequencing (g : Gateway) (w : World)
    (protocol : PortMappingProtocol) (local_addr : SocketAddrV4) (lease_duration : Nat)
    (description : String) :
    (∀ e, w.dev 0 = Except.error e →
       g.get_any_address w protocol local_addr lease_duration description S0 =
         (Except.error
            (AddAnyPortError.getExternalIpError (GetExternalIpError.requestError e)),
          St.mk 1 0 [Request.getExternalIp])) ∧
    (∀ v, w.dev 0 = Except.ok v →
       g.get_any_address w protocol local_addr lease_duration description S0 =
         ((match (g.add_any_port w protocol local_addr lease_duration description
               (St.mk 1 0 [Request.getExternalIp])).1 with
           | Except.ok port => Except.ok (v, port)
           | Except.error e => Except.error e),
          (g.add_any_port w protocol local_addr lease_duration description
             (St.mk 1 0 [Request.getExternalIp])).2)) := by
  constructor
  · intro e he
    simp [Gateway.get_any_address, Gateway.get_external_ip, perform, S0, he,
      parse_get_external_ip_response, fromGetExternalIpError]
  · intro v hv
    rcases haap : g.add_any_port w protocol local_addr lease_duration description
        (St.mk 1 0 [Request.getExternalIp]) with ⟨r, s2⟩
    cases r <;>
      simp [Gateway.get_any_address, Gateway.get_external_ip, perform, S0, hv,
        parse_get_external_ip_response, haap]

/-- Witness for C6, failure branch: a device whose IP query faults makes
get_any_address fail with that fault after exactly one request. -/
theorem get_any_address_sequencing_witness :
    G1.get_any_address WFault PortMappingProtocol.TCP LA1 0 "igd" S0 =
      (Except.error
         (AddAnyPortError.getExternalIpError
           (GetExternalIpError.requestError (RequestError.other 3))),
       St.mk 1 0 [Request.getExternalIp]) :=
  (get_any_address_sequencing G1 WFault PortMappingProtocol.TCP LA1 0 "igd").1
    (RequestError.other 3) rfl

/-- C7: remove_port issues exactly one delete-mapping request, propagates
the device fault unchanged on failure, and returns the unit payload on
success. -/
theorem remove_port_single_request (g : Gateway) (w : World)
    (protocol : PortMappingProtocol) (external_port : Nat) (s : St) :
    g.remove_port w protocol external_port s =
      ((match w.dev s.req with
        | Except.ok _ => Except.ok ()
        | Except.error e => Except.error (RemovePortError.requestError e)),
       St.mk (s.req + 1) s.rnd
         (s.log ++ [Request.deletePortMapping protocol external_port])) := by
  rcases h : w.dev s.req with e | v <;>
    simp [Gateway.remove_port, perform, parse_delete_port_mapping_response, h]

/-- C8: gateway handles are equal under the PartialEq impl exactly when
both fields agree; every handle renders to the URL formed from the fixed
scheme, its address and its control path; equal handles render identically
and feed identical data to the hasher; differing in either field breaks
equality. -/
theorem gateway_eq_render_hash (a1 : SocketAddrV4) (c1 : String)
    (a2 : SocketAddrV4) (c2 : String) :
    (Gateway.beq (Gateway.mk a1 c1) (Gateway.mk a2 c2) = true ↔ a1 = a2 ∧ c1 = c2) ∧
    Gateway.render (Gateway.mk a1 c1) = "http://" ++ a1.render ++ c1 ∧
    (a1 = a2 → c1 = c2 →
       Gateway.render (Gateway.mk a1 c1) = Gateway.render (Gateway.mk a2 c2) ∧
       Gateway.hashStream (Gateway.mk a1 c1) = Gateway.hashStream (Gateway.mk a2 c2)) := by
  refine ⟨?_, rfl, ?_⟩
  · simp [Gateway.beq]
  · intro h1 h2
    subst h1
    subst h2
    exact ⟨rfl, rfl⟩

/-- Witness for C8: identical handles compare equal, handles differing only
in the control path compare unequal. -/
theorem gateway_eq_render_hash_witness :
    Gateway.beq (Gateway.mk LA1 "/ctl") (Gateway.mk LA1 "/ctl") = true ∧
      Gateway.beq (Gateway.mk LA1 "/a") (Gateway.mk LA1 "/b") = false := by
  constructor
  · exact (gateway_eq_render_hash LA1 "/ctl" LA1 "/ctl").1.mpr ⟨rfl, rfl⟩
  · have h := (gateway_eq_render_hash LA1 "/a" LA1 "/b").1
    rw [Bool.eq_false_iff]
    intro hb
    exact absurd (h.mp hb).2 (by decide)

/-- C9: every add_any_port call terminates (the embedding is total) after a
bounded number of transport requests: whatever the device answers, the
response count and the request log grow by at most 41 — one any-port
request plus at most two explicit adds in each of the at most 20 loop
iterations. -/
theorem add_any_port_request_bound (g : Gateway) (w : World)
    (protocol : PortMappingProtocol) (local_addr : SocketAddrV4) (lease_duration : Nat)
    (description : String) (s : St) :
    (g.add_any_port w protocol local_addr lease_duration description s).2.req
      ≤ s.req + 41 ∧
    (g.add_any_port w protocol local_addr lease_duration description s).2.log.length
      ≤ s.log.length + 41 := by
  by_cases hp : local_addr.port = 0
  · simp [Gateway.add_any_port, hp]
  · have heq := add_any_port_eq g w protocol local_addr lease_duration description s hp
    rcases h : w.dev s.req with e | v
    · rw [h] at heq
      cases e with
      | unknownMethod =>
        simp only [Gateway.retry_add_random_port_mapping] at heq
        obtain ⟨t, hlog, hreq, hexp, hlen⟩ := retryLoop_shape g w protocol local_addr
          lease_duration description 20
          (St.mk (s.req + 1) (s.rnd + 1)
            (s.log ++ [Request.addAnyPortMapping protocol (randPort (w.rng s.rnd))]))
        rw [heq]
        constructor
        · rw [hreq]
          simp
          omega
        · rw [hlog]
          simp [List.length_append]
          omega
      | portConflict =>
        simp at heq
        rw [heq]
        simp [List.length_append]
      | samePortRequired =>
        simp at heq
        rw [heq]
        simp [List.length_append]
      | other code =>
        simp at heq
        rw [heq]
        simp [List.length_append]
    · rw [h] at heq
      simp at heq
      rw [heq]
      simp [List.length_append]

/-- C10: with a zero local port and a device that answers the external-IP
query, get_any_address still issues that query over the network — exactly
one request — and only then fails with the internal-port-zero error, since
the validation happens inside add_any_port after the IP query completed. -/
theorem get_any_address_ip_query_before_validation (g : Gateway) (w : World)
    (protocol : PortMappingProtocol) (local_addr : SocketAddrV4) (lease_duration : Nat)
    (description : String) (v : Nat) (hp : local_addr.port = 0)
    (hd : w.dev 0 = Except.ok v) :
    g.get_any_address w protocol local_addr lease_duration description S0 =
      (Except.error AddAnyPortError.internalPortZeroInvalid,
       St.mk 1 0 [Request.getExternalIp]) := by
  simp [Gateway.get_any_address, Gateway.get_external_ip, perform, S0, hd,
    parse_get_external_ip_response, Gateway.add_any_port, hp]

/-- Witness for C10: a reachable device and a zero local port give exactly
one issued request and the internal-port-zero failure. -/
theorem get_any_address_ip_query_before_validation_witness :
    G1.get_any_address WOk PortMappingProtocol.TCP LA0 0 "igd" S0 =
      (Except.error AddAnyPortError.internalPortZeroInvalid,
       St.mk 1 0 [Request.getExternalIp]) :=
  get_any_address_ip_query_before_validation G1 WOk PortMappingProtocol.TCP LA0 0 "igd" 7
    rfl rfl
